import Mathlib

/-!
Verification of the EDR agent (src/edr-agent) against its specification.

The development shallowly embeds the agent's command dispatcher
(`CommandProcessor.cpp`), its response-action executor, the polling loop's
per-command handling, the process-tree termination routine, the telemetry
batching step (`EdrAgent.cpp`, `ProcessEvent`), the push channel's
reconnect/backoff state machine (`WebSocketClient.cpp`) and the two telemetry
POST paths (`HttpClient.cpp`).

JSON values are modelled by the inductive `Json` below.  The source uses
nlohmann::json, whose objects are `std::map`s ordered by key; object literals
in this file are therefore written with their key-value lists already sorted
by key, so that structural equality of `Json` values coincides with equality
of the corresponding nlohmann values, and `dump4` (the model of `dump(4)`)
can emit fields in list order.  External collaborators (the OS, netsh, the
network, nlohmann's parser) are modelled as oracle parameters: the parser's
outcome is an `Option Json` argument, OS calls are boolean-valued functions
supplied through an environment record.
-/

namespace Edr

/-- JSON values as used by the agent (nlohmann::json).  Numbers are modelled
as integers: every number the dispatcher itself constructs or inspects is
integral. -/
inductive Json where
  | null
  | bool (b : Bool)
  | num (n : Int)
  | str (s : String)
  | arr (xs : List Json)
  | obj (kvs : List (String × Json))

/-- Key lookup in an object's field list (nlohmann `find`/`at`). -/
def jLookup : List (String × Json) → String → Option Json
  | [], _ => none
  | (k, v) :: kvs, key => if k == key then some v else jLookup kvs key

/-- `commandJson.at("type").get<std::string>()`: `some ty` when the value is
an object carrying a string field "type"; `none` models the exception thrown
when the value is not an object, the field is missing, or it is not a string
(all caught by the dispatcher's try/catch). -/
def getTypeStr (j : Json) : Option String :=
  match j with
  | .obj kvs =>
    match jLookup kvs "type" with
    | some (.str s) => some s
    | _ => none
  | _ => none

/-- `commandJson.value("parameters", json::object())`. -/
def paramsOf (j : Json) : Json :=
  match j with
  | .obj kvs => (jLookup kvs "parameters").getD (Json.obj [])
  | _ => Json.obj []

/-- `j.value(key, dflt)` for a string default: `none` models the
`type_error` thrown when the field is present but not a string. -/
def valueStr (j : Json) (key dflt : String) : Option String :=
  match j with
  | .obj kvs =>
    match jLookup kvs key with
    | none => some dflt
    | some (.str s) => some s
    | some _ => none
  | _ => none

/-- `j.contains(key) && j[key].is_string()` (the echo/event guard). -/
def containsStringField (j : Json) (key : String) : Bool :=
  match j with
  | .obj kvs =>
    match jLookup kvs key with
    | some (.str _) => true
    | _ => false
  | _ => false

/-- Lower hex digit. -/
def hexDigit (n : Nat) : Char :=
  if n < 10 then Char.ofNat (48 + n) else Char.ofNat (87 + n)

/-- Four lower-case hex digits, for `\uXXXX` escapes. -/
def hex4 (n : Nat) : String :=
  String.mk [hexDigit (n / 4096 % 16), hexDigit (n / 256 % 16),
             hexDigit (n / 16 % 16), hexDigit (n % 16)]

/-- nlohmann's string escaping (ensure_ascii = false, the default). -/
def escapeChar (c : Char) : String :=
  if c = '"' then "\\\""
  else if c = '\\' then "\\\\"
  else if c = '\x08' then "\\b"
  else if c = '\x0c' then "\\f"
  else if c = '\n' then "\\n"
  else if c = '\r' then "\\r"
  else if c = '\t' then "\\t"
  else if c.toNat < 32 then "\\u" ++ hex4 c.toNat
  else String.singleton c

/-- Escape a whole string for JSON serialization. -/
def escapeStr (s : String) : String :=
  String.join (s.toList.map escapeChar)

/-- `n` spaces. -/
def spaces (n : Nat) : String :=
  String.mk (List.replicate n ' ')

mutual

/-- nlohmann `dump(4)` at the given indentation level.  Object fields are
emitted in list order, which by the sorted-literal convention above is
nlohmann's `std::map` key order. -/
def dumpVal (ind : Nat) : Json → String
  | .null => "null"
  | .bool b => if b then "true" else "false"
  | .num n => toString n
  | .str s => "\"" ++ escapeStr s ++ "\""
  | .arr [] => "[]"
  | .arr (x :: xs) =>
      "[\n" ++ spaces (ind + 4) ++ dumpVal (ind + 4) x ++
      dumpArrRest (ind + 4) xs ++ "\n" ++ spaces ind ++ "]"
  | .obj [] => "\x7b\x7d"
  | .obj ((k, v) :: kvs) =>
      "\x7b\n" ++ spaces (ind + 4) ++ "\"" ++ escapeStr k ++ "\": " ++
      dumpVal (ind + 4) v ++ dumpObjRest (ind + 4) kvs ++ "\n" ++ spaces ind ++ "\x7d"

/-- Remaining array elements, each on its own line. -/
def dumpArrRest (ind : Nat) : List Json → String
  | [] => ""
  | x :: xs => ",\n" ++ spaces ind ++ dumpVal ind x ++ dumpArrRest ind xs

/-- Remaining object fields, each on its own line. -/
def dumpObjRest (ind : Nat) : List (String × Json) → String
  | [] => ""
  | (k, v) :: kvs =>
      ",\n" ++ spaces ind ++ "\"" ++ escapeStr k ++ "\": " ++
      dumpVal ind v ++ dumpObjRest ind kvs

end

/-- `responseJson.dump(4)`. -/
def dump4 (j : Json) : String := dumpVal 0 j

/-- Substring test at one position. -/
def subAt (cs ps : List Char) (i : Nat) : Bool :=
  (cs.drop i).take ps.length == ps

/-- `s.find(pat) != std::string::npos`. -/
def strContains (s pat : String) : Bool :=
  (List.range (s.toList.length + 1)).any (fun i => subAt s.toList pat.toList i)

/-! ## Response-action executor and command dispatcher (CommandProcessor.cpp) -/

/-- Privileged OS-level operations the executor can invoke: a process-tree
termination, one netsh firewall command, or the reverse-shell launch. -/
inductive Action where
  | killTree (pid : Int)
  | netsh (cmd : String)
  | reverseShell (ip : String) (port : Int)

/-- The dispatcher's external collaborators: host identity data, the system
information collector, the OS termination and firewall primitives
(boolean-valued, as in the source), `GetLastError`, and the configuration
values `executeCommand` reads (`config.json` via `ConfigReader`). -/
structure Env where
  hostName : String
  winVersion : String
  winVersionNumber : String
  macAddress : String
  /-- Result of `json::parse(getSystemInfoSummary())`; `none` models a throw
  (collection or parse failure), caught inside the system_info handler. -/
  systemInfo : Option Json
  /-- `killProcessTree(pid)` as seen from the dispatcher. -/
  killTree : Int → Bool
  /-- `GetLastError()` after a failed termination. -/
  lastError : Nat
  /-- `runNetshCommand(args)`: exit status of one netsh invocation. -/
  runNetsh : String → Bool
  /-- `ConfigReader::getHttpServer()`. -/
  httpServer : String
  /-- `ConfigReader::getServerReverseShellIp()`. -/
  reverseShellIp : String
  /-- `ConfigReader::getServerReverseShellPort()`. -/
  reverseShellPort : Int

/-- The four firewall rule names created by `isolateHost`, in creation
order. -/
def isolationRuleNames : List String :=
  ["EDR_BLOCK_ALL", "EDR_ALLOW_ANTIGRAVITY", "EDR_ALLOW_SERVER", "EDR_ALLOW_DNS"]

/-- netsh argument string adding the named outbound rule. -/
def addRuleCmd (name rest : String) : String :=
  "advfirewall firewall add rule name=\"" ++ name ++ "\" " ++ rest

/-- netsh argument string deleting the named rule. -/
def deleteRuleCmd (name : String) : String :=
  "advfirewall firewall delete rule name=\"" ++ name ++ "\""

/-- The four `add rule` commands issued by `isolateHost`, in order. -/
def isolationAddCmds (serverIp : String) (serverPort : Int) : List String :=
  [addRuleCmd "EDR_BLOCK_ALL" "dir=out action=block",
   addRuleCmd "EDR_ALLOW_ANTIGRAVITY" "dir=out action=allow protocol=TCP remoteport=80,443",
   addRuleCmd "EDR_ALLOW_SERVER"
     ("dir=out action=allow remoteip=" ++ serverIp ++ " protocol=TCP remoteport=" ++ toString serverPort),
   addRuleCmd "EDR_ALLOW_DNS" "dir=out action=allow protocol=UDP remoteport=53"]

/-- `isolateHost(serverIp, serverPort)`: runs the four `add rule` commands in
order, stopping at the first failure.  Returns the overall result and the
netsh commands actually issued. -/
def isolateHost (netsh : String → Bool) (serverIp : String) (serverPort : Int) :
    Bool × List String :=
  match isolationAddCmds serverIp serverPort with
  | [c1, c2, c3, c4] =>
    if !netsh c1 then (false, [c1])
    else if !netsh c2 then (false, [c1, c2])
    else if !netsh c3 then (false, [c1, c2, c3])
    else if !netsh c4 then (false, [c1, c2, c3, c4])
    else (true, [c1, c2, c3, c4])
  | _ => (false, [])

/-- `deisolateHost()`: runs all four `delete rule` commands unconditionally
and reports the conjunction of their results. -/
def deisolateHost (netsh : String → Bool) : Bool × List String :=
  let c1 := deleteRuleCmd "EDR_BLOCK_ALL"
  let c2 := deleteRuleCmd "EDR_ALLOW_ANTIGRAVITY"
  let c3 := deleteRuleCmd "EDR_ALLOW_SERVER"
  let c4 := deleteRuleCmd "EDR_ALLOW_DNS"
  let r1 := netsh c1
  let r2 := netsh c2
  let r3 := netsh c3
  let r4 := netsh c4
  (r1 && r2 && r3 && r4, [c1, c2, c3, c4])

/-- `params.contains("pid") && params["pid"].is_number()`, then the numeric
conversion: `some pid` exactly when the guard passes. -/
def pidOf (params : Json) : Option Int :=
  match params with
  | .obj kvs =>
    match jLookup kvs "pid" with
    | some (.num n) => some n
    | _ => none
  | _ => none

/-- The kill-failure message, including the best-effort classification of
`GetLastError()` values 5 and 87. -/
def killFailMsg (error : Nat) : String :=
  "Failed to terminate process. Error Code: " ++ toString error ++
    (if error = 5 then " (Access Denied)"
     else if error = 87 then " (Invalid Parameter/PID)"
     else "")

/-- `executeResponseCommand(type, params)`: the response-action branch of the
dispatcher, returning the response envelope and the privileged actions
performed.  Object literals are written key-sorted (nlohmann std::map
order). -/
def executeResponseCommand (env : Env) (ty : String) (params : Json) :
    Json × List Action :=
  if ty == "kill_process" then
    match pidOf params with
    | some pid =>
      if env.killTree pid then
        (Json.obj [("message", Json.str "Process tree terminated"),
                   ("status", Json.str "success")],
         [Action.killTree pid])
      else
        (Json.obj [("error_code", Json.num env.lastError),
                   ("message", Json.str (killFailMsg env.lastError)),
                   ("status", Json.str "failed")],
         [Action.killTree pid])
    | none =>
      (Json.obj [("message", Json.str "Missing PID"),
                 ("status", Json.str "failed")], [])
  else if ty == "isolate_host" then
    let serverIp0 := env.httpServer
    let serverIp := if strContains serverIp0 "localhost" then "127.0.0.1" else serverIp0
    let r := isolateHost env.runNetsh serverIp 8000
    (if r.1 then
       Json.obj [("message", Json.str "Host isolated"), ("status", Json.str "success")]
     else
       Json.obj [("message", Json.str "Failed to isolate host. Check Admin privileges."),
                 ("status", Json.str "failed")],
     r.2.map Action.netsh)
  else if ty == "deisolate_host" then
    let r := deisolateHost env.runNetsh
    (if r.1 then
       Json.obj [("message", Json.str "Host de-isolated"), ("status", Json.str "success")]
     else
       Json.obj [("message", Json.str "Failed to de-isolate host. Check Admin privileges."),
                 ("status", Json.str "failed")],
     r.2.map Action.netsh)
  else
    (Json.obj [("message", Json.str "Unknown command type"),
               ("status", Json.str "error")], [])

/-- An error envelope `{"type": "error", "status": msg}` (key-sorted). -/
def errorEnvelope (msg : String) : Json :=
  Json.obj [("status", Json.str msg), ("type", Json.str "error")]

/-- The `executeCommandByType` lambda of `executeCommand`: the query-handler
table.  `none` models an exception escaping the lambda (only possible in the
auth branch, via `value("message", "")` on a non-string field); `some`
carries the response value and the privileged actions performed. -/
def executeCommandByType (env : Env) (commandJson : Json) (commandType : String) :
    Option (Json × List Action) :=
  if commandType == "ping" then
    some (Json.obj [("status", Json.str "pong"), ("type", Json.str "ping")], [])
  else if commandType == "auth" then
    match valueStr commandJson "message" "" with
    | none => none
    | some m =>
      if m == "Authentication required" then
        some (Json.obj
          [("info", Json.obj
             [("hostname", Json.str env.hostName),
              ("mac_address", Json.str env.macAddress),
              ("os", Json.str "Windows"),
              ("version", Json.str env.winVersion),
              ("version_number", Json.str env.winVersionNumber)]),
           ("type", Json.str "auth")], [])
      else if m == "Authentication successful" then
        some (Json.str "", [])
      else
        some (errorEnvelope "invalid authentication message", [])
  else if commandType == "system_info" then
    match env.systemInfo with
    | some info =>
      some (Json.obj [("info", info), ("type", Json.str "system_info")], [])
    | none => some (errorEnvelope "failed to get system info", [])
  else if commandType == "reverse_shell" then
    if env.reverseShellIp == "" || env.reverseShellPort == -1 then
      some (errorEnvelope "missing or invalid 'ip' or 'port'", [])
    else
      some (Json.obj [("status", Json.str "reverse shell started"),
                      ("type", Json.str "reverse_shell")],
            [Action.reverseShell env.reverseShellIp env.reverseShellPort])
  else if commandType == "echo" then
    if containsStringField commandJson "message" then some (Json.str "", [])
    else some (errorEnvelope "missing or invalid 'message'", [])
  else if commandType == "event" then
    if containsStringField commandJson "message" then some (Json.str "", [])
    else some (errorEnvelope "missing or invalid 'message'", [])
  else
    some (errorEnvelope "unknown command", [])

/-- The fixed envelope returned for malformed input (the raw string literal
in the source, returned without serialization). -/
def invalidJsonEnvelope : String :=
  "\x7b\"type\": \"error\", \"status\": \"invalid JSON or missing 'type' field\"\x7d"

/-- `executeCommand(command)`.  The `Option Json` argument is the outcome of
`json::parse` (the parser is external): `none` is a parse failure.  The
result is `none` when an exception escapes (never on the malformed path,
which is caught), otherwise the returned string together with the privileged
actions performed. -/
def executeCommand (env : Env) (parsed : Option Json) : Option (String × List Action) :=
  match parsed with
  | none => some (invalidJsonEnvelope, [])
  | some commandJson =>
    match getTypeStr commandJson with
    | none => some (invalidJsonEnvelope, [])
    | some commandType =>
      if commandType == "kill_process" || commandType == "isolate_host" ||
         commandType == "deisolate_host" then
        let r := executeResponseCommand env commandType (paramsOf commandJson)
        some (dump4 r.1, r.2)
      else
        match executeCommandByType env commandJson commandType with
        | none => none
        | some (j, acts) => some (dump4 j, acts)

/-- One polled command's handling in `pollCommandsLoop`: for a fetched JSON
value that contains "command_id", the loop reads the id and type as strings
(an exception on either is caught by the loop and nothing is posted), runs
`executeResponseCommand`, and posts the result to
`/commands/result/{command_id}/`.  `some (id, result)` is the posted pair;
`none` means no result is posted. -/
def pollHandleCommand (env : Env) (commandJson : Json) : Option (String × Json) :=
  match commandJson with
  | .obj kvs =>
    match jLookup kvs "command_id" with
    | some (.str commandId) =>
      match jLookup kvs "type" with
      | some (.str commandType) =>
        some (commandId, (executeResponseCommand env commandType (paramsOf commandJson)).1)
      | _ => none
    | some _ => none
    | none => none
  | _ => none

/-! ## Process-tree termination (CommandProcessor.cpp, OS level) -/

/-- Outcomes of the three OS calls `killProcess` makes, per PID:
`OpenProcess` (non-NULL handle), `TerminateProcess`, and the 2000 ms
`WaitForSingleObject` returning `WAIT_OBJECT_0`. -/
structure OsKill where
  openOk : Nat → Bool
  terminateOk : Nat → Bool
  waitExit : Nat → Bool

/-- `killProcess(pid)`: open, terminate, then confirm exit within the
bounded 2-second wait; false as soon as a step fails. -/
def killProcess (os : OsKill) (pid : Nat) : Bool :=
  if !os.openOk pid then false
  else if !os.terminateOk pid then false
  else os.waitExit pid

/-- The direct children of `pid` in a process-table snapshot (entries are
`(pid, parent pid)` pairs, in `Process32First/Next` order). -/
def childPids (table : List (Nat × Nat)) (pid : Nat) : List Nat :=
  (table.filter (fun e => e.2 == pid)).map (·.1)

/-- `killProcessTree(pid)`: recursively kill every child's subtree, then the
parent; the children's results are discarded and the return value is the
parent's own `killProcess`.  The C++ recursion is a tree walk over the
snapshot; `fuel` bounds the recursion depth (the theorems hold for every
fuel).  Returns the result and the list of PIDs passed to `killProcess`, in
call order. -/
def killProcessTree (os : OsKill) (table : List (Nat × Nat)) :
    Nat → Nat → Bool × List Nat
  | 0, pid => (killProcess os pid, [pid])
  | fuel + 1, pid =>
    let childTraces :=
      (childPids table pid).flatMap (fun c => (killProcessTree os table fuel c).2)
    (killProcess os pid, childTraces ++ [pid])

/-! ## Telemetry batching (EdrAgent.cpp, ProcessEvent) -/

/-- The batch threshold in `ProcessEvent`. -/
def BATCH_SIZE : Nat := 100

/-- One event's pass through the batching logic of `ProcessEvent`: append to
the buffer; once the buffer has reached `BATCH_SIZE`, call the batch send
with the whole buffer and clear it whether or not the send succeeded.
Returns the new buffer and, when a flush happened, the batch handed to
`sendTelemetryBatch` together with the send outcome. -/
def processEventBatchStep (send : List Json → Bool) (eventBuffer : List Json)
    (djangoEvent : Json) : List Json × Option (List Json × Bool) :=
  let buf := eventBuffer ++ [djangoEvent]
  if BATCH_SIZE ≤ buf.length then
    ([], some (buf, send buf))
  else
    (buf, none)

/-- The buffer after a sequence of events starting from the given buffer. -/
def runBatcher (send : List Json → Bool) (eventBuffer : List Json) :
    List Json → List Json
  | [] => eventBuffer
  | ev :: evs => runBatcher send (processEventBatchStep send eventBuffer ev).1 evs

/-! ## Push-channel reconnect backoff (WebSocketClient.cpp) -/

/-- The backoff-relevant fields of `WebSocketClient`. -/
structure WsState where
  openFlag : Bool
  shouldReconnect : Bool
  retryCount : Nat
  maxRetries : Nat
  retryDelayMs : Nat
  maxRetryDelayMs : Nat

/-- The constructor's initial values: reconnect enabled, unlimited retries,
5000 ms initial delay, 60000 ms ceiling. -/
def initWs : WsState :=
  { openFlag := false, shouldReconnect := true, retryCount := 0,
    maxRetries := 0, retryDelayMs := 5000, maxRetryDelayMs := 60000 }

/-- `schedule_reconnect()`: no-op if reconnection is disabled or the
configured retry maximum (0 = unlimited) is exhausted; otherwise increment
`retry_count`, arm the timer with the current `retry_delay_ms`, then double
the delay capped at the ceiling.  Returns the new state and the armed delay
(`none` when nothing was scheduled). -/
def schedule_reconnect (s : WsState) : WsState × Option Nat :=
  if !s.shouldReconnect then (s, none)
  else if s.maxRetries > 0 && s.maxRetries ≤ s.retryCount then (s, none)
  else
    ({ s with retryCount := s.retryCount + 1,
              retryDelayMs := min (s.retryDelayMs * 2) s.maxRetryDelayMs },
     some s.retryDelayMs)

/-- The success branch of `on_handshake`: mark the connection open and reset
the retry counter and delay to their floor values. -/
def on_handshake_ok (s : WsState) : WsState :=
  { s with openFlag := true, retryCount := 0, retryDelayMs := 5000 }

/-- The state after `n` consecutive failed attempts (each failure invokes
`schedule_reconnect` once). -/
def failN : Nat → WsState → WsState
  | 0, s => s
  | n + 1, s => (schedule_reconnect (failN n s)).1

/-! ## Telemetry POST paths (HttpClient.cpp) -/

/-- Outcomes of the transport-level steps of one POST, including the
single-retry-after-reconnect leg, plus the HTTP status of the response. -/
structure PostEnv where
  /-- First `ensureConnection()`. -/
  connect1 : Bool
  /-- First `WinHttpOpenRequest`. -/
  openReq1 : Bool
  /-- First `WinHttpSendRequest`. -/
  send1 : Bool
  /-- `ensureConnection()` after tearing down on a failed send. -/
  connect2 : Bool
  /-- Second `WinHttpOpenRequest`. -/
  openReq2 : Bool
  /-- Second `WinHttpSendRequest`. -/
  send2 : Bool
  /-- `WinHttpReceiveResponse`. -/
  recvOk : Bool
  /-- The HTTP status code of the received response. -/
  status : Nat

/-- `sendCompressedHttpPost`: returns `(result, drained)` where `drained`
records whether the response body was read.  Success requires the send (with
one retry), the receive, and an HTTP status of 200 or 201; the body is
drained only in that success case. -/
def sendCompressedHttpPost (e : PostEnv) : Bool × Bool :=
  if !e.connect1 then (false, false)
  else if !e.openReq1 then (false, false)
  else
    let sendOk :=
      if e.send1 then true
      else if e.connect2 && e.openReq2 then e.send2
      else false
    if !sendOk then (false, false)
    else if !e.recvOk then (false, false)
    else if e.status == 200 || e.status == 201 then (true, true)
    else (false, false)

/-- `sendHttpPost` (the plain, uncompressed path): same transport discipline,
but the status check accepts only 201 and the response body is never read. -/
def sendHttpPost (e : PostEnv) : Bool × Bool :=
  if !e.connect1 then (false, false)
  else if !e.openReq1 then (false, false)
  else
    let sendOk :=
      if e.send1 then true
      else if e.connect2 && e.openReq2 then e.send2
      else false
    if !sendOk then (false, false)
    else if !e.recvOk then (false, false)
    else if e.status == 201 then (true, false)
    else (false, false)

/-- The push channel's `on_read` sends the dispatcher's response back only
when the response string is non-empty. -/
def pushChannelSends (response : String) : Bool :=
  !(response == "")

/-! ## Concrete fixtures for witnesses and counterexamples -/

/-- A concrete dispatcher environment. -/
def env0 : Env :=
  { hostName := "DESKTOP-1", winVersion := "10", winVersionNumber := "10.0.19045",
    macAddress := "00:11:22:33:44:55", systemInfo := none,
    killTree := fun _ => true, lastError := 0, runNetsh := fun _ => true,
    httpServer := "localhost", reverseShellIp := "", reverseShellPort := -1 }

/-- `env0` with a configured reverse-shell target. -/
def envRS : Env :=
  { env0 with reverseShellIp := "10.0.0.1", reverseShellPort := 4444 }

/-- OS in which every kill step succeeds except opening process 2. -/
def osC4 : OsKill :=
  { openOk := fun p => !(p == 2), terminateOk := fun _ => true,
    waitExit := fun _ => true }

/-- OS in which process 1 never exits within the bounded wait although its
terminate call succeeds. -/
def osW : OsKill :=
  { openOk := fun _ => true, terminateOk := fun _ => true,
    waitExit := fun p => !(p == 1) }

/-- A polled ping command carrying a command id. -/
def cmdPing : Json :=
  Json.obj [("command_id", Json.str "c1"), ("type", Json.str "ping")]

/-- A reverse_shell command envelope. -/
def cmdRS : Json :=
  Json.obj [("type", Json.str "reverse_shell")]

/-- The auth acknowledgment command. -/
def cmdAuthAck : Json :=
  Json.obj [("message", Json.str "Authentication successful"), ("type", Json.str "auth")]

/-- A POST whose transport steps all succeed and whose response is HTTP 200. -/
def postOk200 : PostEnv :=
  { connect1 := true, openReq1 := true, send1 := true, connect2 := true,
    openReq2 := true, send2 := true, recvOk := true, status := 200 }

/-- A POST whose transport steps all succeed and whose response is HTTP 201. -/
def postOk201 : PostEnv :=
  { postOk200 with status := 201 }

/-- A netsh oracle in which only the EDR_ALLOW_SERVER removal fails. -/
def netshW : String → Bool :=
  fun c => !(c == deleteRuleCmd "EDR_ALLOW_SERVER")

/-! ## Theorems -/

/-- C1: for every malformed input to `executeCommand` — a string that does
not parse as JSON, or a parsed value without a string "type" field — the
dispatcher returns the fixed "invalid JSON or missing 'type' field" error
envelope, performs no privileged action, and propagates no exception (the
result is `some`, the normal-return case of the embedding). -/
theorem C1_malformed_input_fixed_envelope (env : Env) (j : Json)
    (h : getTypeStr j = none) :
    executeCommand env none = some (invalidJsonEnvelope, []) ∧
    executeCommand env (some j) = some (invalidJsonEnvelope, []) := by
  refine ⟨rfl, ?_⟩
  simp [executeCommand, h]

/-- Witness for C1 at a JSON object lacking a "type" field. -/
theorem C1_witness :
    executeCommand env0 none = some (invalidJsonEnvelope, []) ∧
    executeCommand env0 (some (Json.obj [("pid", Json.num 4)])) =
      some (invalidJsonEnvelope, []) :=
  C1_malformed_input_fixed_envelope env0 (Json.obj [("pid", Json.num 4)]) rfl

/-- C2: pushing the event that brings the telemetry buffer to exactly
`BATCH_SIZE` entries triggers exactly one batch send carrying all
`BATCH_SIZE` buffered events in order, and the buffer is empty immediately
afterwards whatever the send returned; a push below the threshold only
appends the event. -/
theorem C2_batch_flush (send : List Json → Bool) (buf : List Json) (ev : Json) :
    (buf.length + 1 = BATCH_SIZE →
      processEventBatchStep send buf ev =
        ([], some (buf ++ [ev], send (buf ++ [ev])))) ∧
    (buf.length + 1 < BATCH_SIZE →
      processEventBatchStep send buf ev = (buf ++ [ev], none)) := by
  constructor <;> intro h <;> simp [processEventBatchStep] <;> omega

/-- Witness for C2: a 99-event buffer plus one event flushes a batch of 100
and empties the buffer even though the send fails. -/
theorem C2_witness :
    processEventBatchStep (fun _ => false) (List.replicate 99 Json.null) Json.null =
      ([], some (List.replicate 99 Json.null ++ [Json.null], false)) :=
  (C2_batch_flush (fun _ => false) (List.replicate 99 Json.null) Json.null).1 (by simp [BATCH_SIZE])

/-- C10: a kill_process command whose parameters lack a numeric "pid" field
returns the `{"status": "failed", "message": "Missing PID"}` envelope and
performs no privileged action (the action trace is empty, so no process
state is touched). -/
theorem C10_missing_pid_no_action (env : Env) (params : Json)
    (h : pidOf params = none) :
    executeResponseCommand env "kill_process" params =
      (Json.obj [("message", Json.str "Missing PID"), ("status", Json.str "failed")],
       []) := by
  simp [executeResponseCommand, h]

/-- Witness for C10 at parameters whose "pid" is a string, not a number. -/
theorem C10_witness :
    executeResponseCommand env0 "kill_process" (Json.obj [("pid", Json.str "7")]) =
      (Json.obj [("message", Json.str "Missing PID"), ("status", Json.str "failed")],
       []) :=
  C10_missing_pid_no_action env0 (Json.obj [("pid", Json.str "7")]) rfl

/-- Closed form of the backoff state after `k` consecutive failures from a
fresh (or freshly handshaken) client: the retry counter is `k` and the
pending delay is `min (5000 * 2 ^ k) 60000`. -/
theorem failN_initWs (k : Nat) :
    failN k initWs =
      { openFlag := false, shouldReconnect := true, retryCount := k,
        maxRetries := 0, retryDelayMs := min (5000 * 2 ^ k) 60000,
        maxRetryDelayMs := 60000 } := by
  induction k with
  | zero => simp [failN, initWs]
  | succ n ih =>
    simp only [failN, ih, schedule_reconnect]
    norm_num [pow_succ]
    omega

/-- C3: with the constructor's configuration (initial delay 5000 ms, cap
60000 ms, unlimited retries), the delay armed for the Kth scheduled
reconnection after K consecutive failures is `min (5000 * 2^(K-1)) 60000`;
a successful handshake resets the retry counter to 0 and the next failure's
armed delay to the 5000 ms floor. -/
theorem C3_backoff_schedule (K : Nat) (s : WsState) (hK : 1 ≤ K)
    (hs : s.shouldReconnect = true) :
    (schedule_reconnect (failN (K - 1) initWs)).2 =
      some (min (5000 * 2 ^ (K - 1)) 60000) ∧
    (on_handshake_ok s).retryCount = 0 ∧
    (schedule_reconnect (on_handshake_ok s)).2 = some 5000 := by
  refine ⟨?_, rfl, ?_⟩
  · rw [failN_initWs]
    simp [schedule_reconnect]
  · have hm : ¬(0 < s.maxRetries ∧ s.maxRetries = 0) := by omega
    simp [schedule_reconnect, on_handshake_ok, hs, hm]

/-- Witness for C3 at K = 5: the fifth scheduled delay is already capped at
60000 ms, and a handshake resets the counter and the next delay. -/
theorem C3_witness :
    (schedule_reconnect (failN 4 initWs)).2 = some 60000 ∧
    (on_handshake_ok initWs).retryCount = 0 ∧
    (schedule_reconnect (on_handshake_ok initWs)).2 = some 5000 := by
  have h := C3_backoff_schedule 5 initWs (by norm_num) rfl
  simpa using h

/-- Every call of `killProcessTree` ends by attempting its own PID. -/
theorem self_mem_killProcessTree_trace (os : OsKill) (table : List (Nat × Nat)) :
    ∀ fuel pid, pid ∈ (killProcessTree os table fuel pid).2 := by
  intro fuel pid
  cases fuel with
  | zero => simp [killProcessTree]
  | succ n => simp [killProcessTree]

/-- C4 counterexample: in the table `[(2, 1)]`, process 2 is a live child of
process 1; terminating 2 fails (its handle cannot be opened) yet
`killProcessTree 1` still returns success, because descendant outcomes are
discarded.  The claim that success implies all N+1 processes were terminated
is therefore false. -/
theorem C4_counterexample :
    childPids [(2, 1)] 1 = [2] ∧
    killProcess osC4 2 = false ∧
    (killProcessTree osC4 [(2, 1)] 2 1).1 = true := by
  decide

/-- C4 (amended): `killProcessTree` issues the root's kill last, issues every
direct child's kill strictly before the root's, and its return value is
exactly the root's own `killProcess` outcome, which demands a confirmed exit
within the bounded 2-second wait — so a root that does not exit within the
wait yields failure even when its terminate call reported success, while
descendant failures are ignored. -/
theorem C4_kill_tree_postorder_root_confirmed (os : OsKill)
    (table : List (Nat × Nat)) (fuel pid : Nat) :
    (killProcessTree os table fuel pid).1 = killProcess os pid ∧
    (killProcessTree os table fuel pid).2.getLast? = some pid ∧
    (os.terminateOk pid = true → os.waitExit pid = false →
      (killProcessTree os table fuel pid).1 = false) ∧
    (∀ c ∈ childPids table pid, 0 < fuel →
      c ∈ (killProcessTree os table fuel pid).2.dropLast) := by
  have hfst : (killProcessTree os table fuel pid).1 = killProcess os pid := by
    cases fuel <;> rfl
  refine ⟨hfst, ?_, ?_, ?_⟩
  · cases fuel with
    | zero => rfl
    | succ n => simp [killProcessTree]
  · intro hterm hwait
    rw [hfst]
    simp [killProcess, hwait]
  · intro c hc hfuel
    cases fuel with
    | zero => omega
    | succ n =>
      simp only [killProcessTree, List.dropLast_concat]
      exact List.mem_flatMap.mpr ⟨c, hc, self_mem_killProcessTree_trace os table n c⟩

/-- Witness for C4 (amended): process 1 has child 2; every terminate call
succeeds but process 1 never exits within the wait, so the tree kill fails,
and child 2 is attempted before the root. -/
theorem C4_witness :
    (killProcessTree osW [(2, 1)] 3 1).1 = false ∧
    2 ∈ (killProcessTree osW [(2, 1)] 3 1).2.dropLast := by
  have h := C4_kill_tree_postorder_root_confirmed osW [(2, 1)] 3 1
  exact ⟨h.2.2.1 rfl rfl, h.2.2.2 2 (by decide) (by norm_num)⟩

/-- C5 counterexample: a polled ping command with a command id.  The polling
loop posts the executor's fallback "Unknown command type" envelope, while
`executeCommand` on the same command produces (and serializes) the ping/pong
envelope — a different JSON value.  The two delivery paths do not dispatch
this command identically. -/
theorem C5_counterexample :
    pollHandleCommand env0 cmdPing =
      some ("c1", Json.obj [("message", Json.str "Unknown command type"),
                            ("status", Json.str "error")]) ∧
    executeCommand env0 (some cmdPing) =
      some (dump4 (Json.obj [("status", Json.str "pong"), ("type", Json.str "ping")]),
            []) ∧
    Json.obj [("message", Json.str "Unknown command type"), ("status", Json.str "error")] ≠
      Json.obj [("status", Json.str "pong"), ("type", Json.str "ping")] := by
  refine ⟨rfl, rfl, ?_⟩
  simp

/-- C5 (amended): for polled commands whose type is one of the three
response actions, the JSON value posted back to `/commands/result/{id}/` is
exactly the value `executeCommand` would produce and serialize for the same
command; for any other type the polling path posts the executor's
"Unknown command type" fallback instead of the dispatcher's handler result. -/
theorem C5_poll_matches_dispatcher_on_response_actions (env : Env)
    (kvs : List (String × Json)) (id ty : String)
    (hid : jLookup kvs "command_id" = some (Json.str id))
    (hty : jLookup kvs "type" = some (Json.str ty))
    (h3 : ty = "kill_process" ∨ ty = "isolate_host" ∨ ty = "deisolate_host") :
    pollHandleCommand env (Json.obj kvs) =
      some (id, (executeResponseCommand env ty (paramsOf (Json.obj kvs))).1) ∧
    executeCommand env (some (Json.obj kvs)) =
      some (dump4 (executeResponseCommand env ty (paramsOf (Json.obj kvs))).1,
            (executeResponseCommand env ty (paramsOf (Json.obj kvs))).2) := by
  have hgty : getTypeStr (Json.obj kvs) = some ty := by
    simp [getTypeStr, hty]
  constructor
  · simp [pollHandleCommand, hid, hty]
  · rcases h3 with h | h | h <;> subst h <;> simp [executeCommand, hgty]

/-- Witness for C5 (amended) at a deisolate_host command with id "c2". -/
theorem C5_witness :
    pollHandleCommand env0
        (Json.obj [("command_id", Json.str "c2"), ("type", Json.str "deisolate_host")]) =
      some ("c2",
        (executeResponseCommand env0 "deisolate_host"
          (paramsOf (Json.obj [("command_id", Json.str "c2"),
                               ("type", Json.str "deisolate_host")]))).1) :=
  (C5_poll_matches_dispatcher_on_response_actions env0
    [("command_id", Json.str "c2"), ("type", Json.str "deisolate_host")]
    "c2" "deisolate_host" rfl rfl (Or.inr (Or.inr rfl))).1

/-- C6 counterexample: the undocumented type "reverse_shell" is outside the
documented vocabulary, yet the dispatcher does not answer with the
"unknown command" envelope: with no configured target it answers a distinct
error envelope, and with a configured target it answers a success envelope
and launches the shell (a privileged action). -/
theorem C6_counterexample :
    executeCommand env0 (some cmdRS) =
      some (dump4 (errorEnvelope "missing or invalid 'ip' or 'port'"), []) ∧
    executeCommand envRS (some cmdRS) =
      some (dump4 (Json.obj [("status", Json.str "reverse shell started"),
                             ("type", Json.str "reverse_shell")]),
            [Action.reverseShell "10.0.0.1" 4444]) ∧
    errorEnvelope "missing or invalid 'ip' or 'port'" ≠ errorEnvelope "unknown command" := by
  refine ⟨rfl, rfl, ?_⟩
  simp [errorEnvelope]

/-- C6 (amended): for every well-formed command whose type is outside the
documented vocabulary extended with the undocumented "reverse_shell" — that
is, outside {ping, auth, system_info, echo, event, kill_process,
isolate_host, deisolate_host, reverse_shell} — `executeCommand` returns the
serialized generic "unknown command" error envelope and performs no
privileged action. -/
theorem C6_unknown_type_generic_error (env : Env) (j : Json) (ty : String)
    (hty : getTypeStr j = some ty)
    (h : ty ∉ ["ping", "auth", "system_info", "echo", "event", "kill_process",
               "isolate_host", "deisolate_host", "reverse_shell"]) :
    executeCommand env (some j) = some (dump4 (errorEnvelope "unknown command"), []) := by
  simp only [List.mem_cons, List.not_mem_nil, or_false, not_or] at h
  obtain ⟨h1, h2, h3, h4, h5, h6, h7, h8, h9⟩ := h
  simp [executeCommand, hty, executeCommandByType, h1, h2, h3, h4, h5, h6, h7, h8, h9]

/-- Witness for C6 (amended) at the unknown type "selfdestruct". -/
theorem C6_witness :
    executeCommand env0 (some (Json.obj [("type", Json.str "selfdestruct")])) =
      some (dump4 (errorEnvelope "unknown command"), []) :=
  C6_unknown_type_generic_error env0 (Json.obj [("type", Json.str "selfdestruct")])
    "selfdestruct" rfl (by decide)

/-- C7 counterexample: with every transport step succeeding and the server
answering HTTP 200, the compressed batch path reports success but the plain
uncompressed POST path reports failure — the two paths do not share the
claimed 200-or-201 success definition. -/
theorem C7_counterexample :
    (sendCompressedHttpPost postOk200).1 = true ∧
    (sendHttpPost postOk200).1 = false := by
  decide

/-- C7 (amended): when the transport steps succeed, the compressed batch
send succeeds iff the HTTP status is 200 or 201 and drains the response body
exactly in that success case; the plain uncompressed POST succeeds iff the
status is exactly 201 (200 is reported as failure) and never reads the
response body. -/
theorem C7_status_success_definitions (e : PostEnv) (h1 : e.connect1 = true)
    (h2 : e.openReq1 = true) (h3 : e.send1 = true) (h4 : e.recvOk = true) :
    (sendCompressedHttpPost e).1 = (e.status == 200 || e.status == 201) ∧
    (sendCompressedHttpPost e).2 = (e.status == 200 || e.status == 201) ∧
    (sendHttpPost e).1 = (e.status == 201) ∧
    (sendHttpPost e).2 = false := by
  simp only [sendCompressedHttpPost, sendHttpPost, h1, h2, h3, h4]
  cases hc : (e.status == 200 || e.status == 201) <;>
    cases hp : (e.status == 201) <;>
      simp_all

/-- Witness for C7 (amended) at HTTP 201: both paths succeed; only the
compressed one drains the body. -/
theorem C7_witness :
    (sendCompressedHttpPost postOk201).1 = (postOk201.status == 200 || postOk201.status == 201) ∧
    (sendCompressedHttpPost postOk201).2 = (postOk201.status == 200 || postOk201.status == 201) ∧
    (sendHttpPost postOk201).1 = (postOk201.status == 201) ∧
    (sendHttpPost postOk201).2 = false :=
  C7_status_success_definitions postOk201 rfl rfl rfl rfl

/-- C8: `deisolateHost` always issues the delete command for each of the
four rule names `isolateHost` creates, whatever the outcome of the earlier
removals, and returns the conjunction of the four removal outcomes; and a
fully successful isolation issues exactly the add commands for those same
four names. -/
theorem C8_deisolation_attempts_all_rules (netsh : String → Bool)
    (ip : String) (port : Int) :
    (deisolateHost netsh).2 = isolationRuleNames.map deleteRuleCmd ∧
    (deisolateHost netsh).1 =
      (netsh (deleteRuleCmd "EDR_BLOCK_ALL") &&
       netsh (deleteRuleCmd "EDR_ALLOW_ANTIGRAVITY") &&
       netsh (deleteRuleCmd "EDR_ALLOW_SERVER") &&
       netsh (deleteRuleCmd "EDR_ALLOW_DNS")) ∧
    ((isolateHost netsh ip port).1 = true →
      (isolateHost netsh ip port).2 = isolationAddCmds ip port) := by
  refine ⟨rfl, rfl, ?_⟩
  by_cases a1 : netsh (addRuleCmd "EDR_BLOCK_ALL" "dir=out action=block") <;>
    by_cases a2 : netsh (addRuleCmd "EDR_ALLOW_ANTIGRAVITY"
      "dir=out action=allow protocol=TCP remoteport=80,443") <;>
      by_cases a3 : netsh (addRuleCmd "EDR_ALLOW_SERVER"
        ("dir=out action=allow remoteip=" ++ ip ++ " protocol=TCP remoteport=" ++
          toString port)) <;>
        by_cases a4 : netsh (addRuleCmd "EDR_ALLOW_DNS"
          "dir=out action=allow protocol=UDP remoteport=53") <;>
          simp [isolateHost, isolationAddCmds, a1, a2, a3, a4]

/-- Witness for C8: with only the EDR_ALLOW_SERVER removal failing, all four
delete commands are still issued and the aggregate result is failure; a
fully successful isolation creates exactly the four named rules. -/
theorem C8_witness :
    (deisolateHost netshW).2 = isolationRuleNames.map deleteRuleCmd ∧
    (deisolateHost netshW).1 = false ∧
    (isolateHost (fun _ => true) "1.2.3.4" 8000).2 = isolationAddCmds "1.2.3.4" 8000 := by
  have h := C8_deisolation_attempts_all_rules netshW "1.2.3.4" 8000
  have h2 := C8_deisolation_attempts_all_rules (fun _ => true) "1.2.3.4" 8000
  refine ⟨h.1, ?_, h2.2.2 (by decide)⟩
  rw [h.2.1]
  decide

/-- C9 (the code's divergence from the claim): the auth acknowledgment makes
the handler return the JSON empty string, whose `dump(4)` serialization is
the two-character text consisting of two quote marks — a non-empty string —
so the push channel's non-empty guard does send it back; nothing about the
response is empty on the wire, contrary to the documented no-op. -/
theorem C9_auth_ack_reply_is_sent :
    executeCommand env0 (some cmdAuthAck) = some ("\"\"", []) ∧
    pushChannelSends "\"\"" = true := by
  exact ⟨rfl, rfl⟩

end Edr
